import Mathlib

/-!
Verification of the AI Guardian analysis backend.

The development shallowly embeds the pipeline of `backend/main.py`
(feed fetching, corpus aggregation, similarity scoring, verdict, response
shaping) and `backend/database.py` (`create_document`).  Python floats are
modelled as exact rationals `ℚ`; the cosine-similarity computation performed
by the external vectorizer is modelled over `ℝ`.  External effects (feed
parsing, vectorization, the document store) enter as explicit parameters:
a failed feed parse or a raised vectorization error is an `Option.none`.
-/

namespace AIGuardian

/-- An article record as produced by `fetch_feed`: every field has been
defaulted to `""` when missing, so all three fields are plain strings. -/
structure Article where
  title : String
  summary : String
  link : String
deriving DecidableEq, Repr

/-- The inbound request body (`schemas.Submission`): required `text`,
optional `url`. -/
structure Submission where
  text : String
  url : Option String
deriving DecidableEq, Repr

/-- A raw feed entry before normalization: `feedparser` entries may lack
any of `title`, `summary`, `link`, which `getattr(e, field, "")` defaults. -/
structure FeedEntry where
  title : Option String
  summary : Option String
  link : Option String
deriving DecidableEq, Repr

/-- Python's whitespace test used by `str.strip`. -/
def isSpaceChar (c : Char) : Bool :=
  c = ' ' || c = '\t' || c = '\n' || c = '\r' || c = '\x0b' || c = '\x0c'

/-- Python's `str.strip()`: drop leading and trailing whitespace. -/
def pyStrip (s : String) : String :=
  String.mk (((s.data.dropWhile isSpaceChar).reverse.dropWhile isSpaceChar).reverse)

/-- `{"title": getattr(e,"title",""), "summary": getattr(e,"summary",""),
"link": getattr(e,"link","")}` in `fetch_feed`. -/
def entryToArticle (e : FeedEntry) : Article :=
  { title := e.title.getD ""
    summary := e.summary.getD ""
    link := e.link.getD "" }

/-- `fetch_feed` (main.py lines 56-68).  `parsed` is the outcome of
`feedparser.parse`: `none` when the parse (or anything inside the `try`)
raised, `some entries` otherwise.  On success the first 20 entries are
normalized, in feed order; on failure the empty list is returned. -/
def fetch_feed (parsed : Option (List FeedEntry)) : List Article :=
  match parsed with
  | none => []
  | some entries => (entries.take 20).map entryToArticle

/-- The dedup loop of `gather_latest_news` (main.py lines 76-83): walk the
flattened article list keeping a `seen` set of trimmed titles; an article
whose trimmed title is empty or already seen is skipped, otherwise it is
kept and its title added to `seen`. -/
def dedupAux (seen : List String) : List Article → List Article
  | [] => []
  | it :: rest =>
    let t := pyStrip it.title
    if t = "" ∨ t ∈ seen then dedupAux seen rest
    else it :: dedupAux (t :: seen) rest

/-- `gather_latest_news` (main.py lines 70-84), parametrized by the
per-source fetch results: flatten them in source order, dedupe by trimmed
title, and truncate to the first 60 entries (`unique[:60]`). -/
def gather_latest_news (results : List (List Article)) : List Article :=
  (dedupAux [] results.flatten).take 60

/-- `plagiarism_score = float(max(sims) if len(sims) else 0.0)`
(main.py line 117). -/
def plagiarism_score (sims : List ℚ) : ℚ :=
  match sims with
  | [] => 0
  | x :: xs => xs.foldl max x

/-- `top_k = sorted(sims, reverse=True)[:5] if len(sims) else []`
(main.py line 118): descending sort, first five. -/
def top_k : List ℚ → List ℚ
  | [] => []
  | x :: xs => (List.insertionSort (fun a b => a ≥ b) (x :: xs)).take 5

/-- `agreement = sum(top_k) / len(top_k) if top_k else 0.0`
(main.py line 119). -/
def agreement (sims : List ℚ) : ℚ :=
  let l := top_k sims
  if l = [] then 0 else l.sum / (l.length : ℚ)

/-- `fake_news_score = float(max(0.0, 1.0 - agreement))` (main.py line 120). -/
def fake_news_score (sims : List ℚ) : ℚ :=
  max 0 (1 - agreement sims)

/-- The verdict block of `analyze` (main.py lines 122-128): a default that
is sequentially overwritten by three `if` statements. -/
def verdictOf (p f : ℚ) : String :=
  let v := "Likely Authentic"
  let v := if p > 0.7 then "Possible Plagiarism" else v
  let v := if f > 0.6 then "Potentially Misleading" else v
  let v := if p > 0.7 ∧ f > 0.6 then "High Risk: Copied & Misleading" else v
  v

/-- Round-half-to-even on `ℚ`, the tie rule of Python's builtin `round`. -/
def roundHalfEven (x : ℚ) : ℤ :=
  let f := ⌊x⌋
  let r := x - (f : ℚ)
  if r < 1/2 then f
  else if 1/2 < r then f + 1
  else if f % 2 = 0 then f else f + 1

/-- `round(x, 3)` (main.py lines 149-150): round to three decimal places. -/
def round3 (x : ℚ) : ℚ :=
  (roundHalfEven (x * 1000) : ℚ) / 1000

/-- The record passed to `create_document("analysis", doc)` (main.py lines
131-140).  `created_at`/`updated_at` are the two `dt.datetime.utcnow()`
timestamps `analyze` itself writes into the dict. -/
structure StoredDoc where
  text : String
  source_url : Option String
  plagiarism_score : ℚ
  fake_news_score : ℚ
  verdict : String
  articles_used : List Article
  created_at : String
  updated_at : String
deriving DecidableEq, Repr

/-- The `AnalyzeResponse` model returned to the caller (main.py lines
39-44 and 147-153). -/
structure AnalyzeResponse where
  id : String
  plagiarism_score : ℚ
  fake_news_score : ℚ
  verdict : String
  compared_articles : List Article
deriving DecidableEq, Repr

/-- `analyze` (main.py lines 90-153) as a function of its request payload
and its effectful collaborators: `fetched` is the list of per-source
`fetch_feed` results consumed by `gather_latest_news`, `sims` the flattened
cosine-similarity row produced by the vectorizer step, `ts1`/`ts2` the two
`utcnow()` timestamps, `docId` the id assigned by `create_document`.
An empty trimmed text raises `HTTPException(400)`, modelled as
`Except.error 400`; otherwise the stored record and the HTTP response are
produced. -/
def analyze (payload : Submission) (fetched : List (List Article)) (sims : List ℚ)
    (ts1 ts2 : String) (docId : String) : Except Nat (StoredDoc × AnalyzeResponse) :=
  let text := pyStrip payload.text
  if text = "" then Except.error 400
  else
    let articles := gather_latest_news fetched
    let p := plagiarism_score sims
    let f := fake_news_score sims
    let v := verdictOf p f
    let doc : StoredDoc :=
      { text := text
        source_url := payload.url
        plagiarism_score := p
        fake_news_score := f
        verdict := v
        articles_used := articles.take 10
        created_at := ts1
        updated_at := ts2 }
    let resp : AnalyzeResponse :=
      { id := docId
        plagiarism_score := round3 p
        fake_news_score := round3 f
        verdict := v
        compared_articles := articles.take 5 }
    Except.ok (doc, resp)

/-! ### The persistence layer (`database.py`) -/

/-- A field value of a stored document. -/
inductive Value where
  | str : String → Value
  | optStr : Option String → Value
  | num : ℚ → Value
  | arts : List Article → Value
deriving DecidableEq, Repr

/-- A Python dict, seen as its key-to-value mapping. -/
def Dict := String → Option Value

/-- `{**d, k: v}`: the merge-with-override of a single key. -/
def dictInsert (d : Dict) (k : String) (v : Value) : Dict :=
  fun q => if q = k then some v else d q

/-- The data transformation of `create_document` (database.py lines 13-17):
`data = {**data, "_created_at": now.isoformat(), "_updated_at": now.isoformat()}`,
which is what gets inserted into the collection. -/
def create_document (now : String) (data : Dict) : Dict :=
  dictInsert (dictInsert data "_created_at" (Value.str now)) "_updated_at" (Value.str now)

/-- The dict literal `doc` built by `analyze` (main.py lines 131-140),
keyed as in the source. -/
def docDict (d : StoredDoc) : Dict := fun k =>
  if k = "text" then some (Value.str d.text)
  else if k = "source_url" then some (Value.optStr d.source_url)
  else if k = "plagiarism_score" then some (Value.num d.plagiarism_score)
  else if k = "fake_news_score" then some (Value.num d.fake_news_score)
  else if k = "verdict" then some (Value.str d.verdict)
  else if k = "articles_used" then some (Value.arts d.articles_used)
  else if k = "_created_at" then some (Value.str d.created_at)
  else if k = "_updated_at" then some (Value.str d.updated_at)
  else none

/-! ### The similarity engine

`analyze` builds `corpus = [text] + [title + " " + summary per article]`,
fits a TF-IDF vectorizer on it, and computes
`cosine_similarity(X[0:1], X[1:]).flatten()` — one score per article, in
corpus order — guarded by `if X.shape[0] > 1 else []` and a `try/except`
that collapses any vectorization failure to `sims = []`.  The vectorizer
itself is external (scikit-learn); its output enters the model as an
optional list of rows of non-negative term weights, `none` when the `try`
block raised. -/

/-- `combined = f"{a.get('title','')} {a.get('summary','')}"`
(main.py line 102). -/
def combinedDoc (a : Article) : String :=
  a.title ++ " " ++ a.summary

/-- The `corpus` list of `analyze` (main.py lines 99-104): the submission
text followed by one combined document per article, in corpus order. -/
def corpusOf (text : String) (articles : List Article) : List String :=
  text :: articles.map combinedDoc

/-- A TF-IDF row: a vector of `m` term weights. -/
def Vec (m : ℕ) := Fin m → ℝ

/-- Dot product of two rows. -/
def dotp {m : ℕ} (a b : Vec m) : ℝ :=
  ∑ i, a i * b i

/-- Cosine similarity of two rows, `dot / (‖a‖ * ‖b‖)`.  (In Lean a zero
denominator yields `0`, matching scikit-learn's convention that a
zero-norm row has similarity 0.) -/
noncomputable def cosineSim {m : ℕ} (a b : Vec m) : ℝ :=
  dotp a b / (Real.sqrt (dotp a a) * Real.sqrt (dotp b b))

/-- The similarity computation of `analyze` (main.py lines 107-112): on
vectorizer failure (`none`) the empty list; otherwise, writing the fitted
matrix as its list of rows, `cosine_similarity(X[0:1], X[1:])` when
`X.shape[0] > 1`, else the empty list. -/
noncomputable def simsOf {m : ℕ} : Option (List (Vec m)) → List ℝ
  | none => []
  | some [] => []
  | some (v0 :: rest) => if rest.isEmpty then [] else rest.map (cosineSim v0)

/-! ### Helper lemmas -/

theorem foldl_max_le_of_le {b : ℚ} :
    ∀ (l : List ℚ) (a : ℚ), a ≤ b → (∀ x ∈ l, x ≤ b) → List.foldl max a l ≤ b
  | [], _, ha, _ => ha
  | x :: xs, a, ha, hl => by
    simp only [List.foldl_cons]
    exact foldl_max_le_of_le xs (max a x)
      (max_le ha (hl x (List.mem_cons_self x xs)))
      (fun y hy => hl y (List.mem_cons_of_mem _ hy))

theorem le_foldl_max : ∀ (l : List ℚ) (a : ℚ), a ≤ List.foldl max a l
  | [], a => le_refl a
  | x :: xs, a => by
    simp only [List.foldl_cons]
    exact le_trans (le_max_left a x) (le_foldl_max xs (max a x))

theorem top_k_subset (sims : List ℚ) : ∀ x ∈ top_k sims, x ∈ sims := by
  intro x hx
  cases sims with
  | nil => simp [top_k] at hx
  | cons a l =>
    simp only [top_k] at hx
    exact (List.perm_insertionSort (fun a b => a ≥ b) (a :: l)).mem_iff.mp
      (List.take_subset _ _ hx)

theorem agreement_nonneg (sims : List ℚ) (h : ∀ x ∈ sims, 0 ≤ x) :
    0 ≤ agreement sims := by
  unfold agreement
  by_cases hl : top_k sims = []
  · simp [hl]
  · simp only [hl, if_false]
    exact div_nonneg
      (List.sum_nonneg fun x hx => h x (top_k_subset sims x hx))
      (by exact_mod_cast Nat.zero_le _)

theorem dedupAux_sublist : ∀ (seen : List String) (l : List Article),
    (dedupAux seen l).Sublist l
  | _, [] => List.Sublist.refl []
  | seen, it :: rest => by
    simp only [dedupAux]
    by_cases h : pyStrip it.title = "" ∨ pyStrip it.title ∈ seen
    · rw [if_pos h]
      exact (dedupAux_sublist seen rest).cons it
    · rw [if_neg h]
      exact (dedupAux_sublist (pyStrip it.title :: seen) rest).cons₂ it

theorem dedupAux_mem : ∀ (seen : List String) (l : List Article),
    ∀ a ∈ dedupAux seen l, pyStrip a.title ≠ "" ∧ pyStrip a.title ∉ seen
  | seen, [], a, ha => by simp [dedupAux] at ha
  | seen, it :: rest, a, ha => by
    simp only [dedupAux] at ha
    by_cases h : pyStrip it.title = "" ∨ pyStrip it.title ∈ seen
    · rw [if_pos h] at ha
      exact dedupAux_mem seen rest a ha
    · rw [if_neg h] at ha
      push_neg at h
      rcases List.mem_cons.mp ha with rfl | ha2
      · exact ⟨h.1, h.2⟩
      · have h3 := dedupAux_mem _ rest a ha2
        exact ⟨h3.1, fun hc => h3.2 (List.mem_cons_of_mem _ hc)⟩

theorem dedupAux_nodup : ∀ (seen : List String) (l : List Article),
    ((dedupAux seen l).map fun a => pyStrip a.title).Nodup
  | seen, [] => by simp [dedupAux]
  | seen, it :: rest => by
    simp only [dedupAux]
    by_cases h : pyStrip it.title = "" ∨ pyStrip it.title ∈ seen
    · rw [if_pos h]
      exact dedupAux_nodup seen rest
    · rw [if_neg h]
      simp only [List.map_cons, List.nodup_cons]
      refine ⟨fun hmem => ?_, dedupAux_nodup _ rest⟩
      rcases List.mem_map.mp hmem with ⟨b, hb, hbt⟩
      exact (dedupAux_mem _ rest b hb).2 (by rw [hbt]; exact List.mem_cons_self _ _)

theorem dedupAux_find : ∀ (seen : List String) (l : List Article) (t : String),
    t ≠ "" → t ∉ seen →
    (dedupAux seen l).find? (fun a => pyStrip a.title == t)
      = l.find? (fun a => pyStrip a.title == t)
  | _, [], _, _, _ => rfl
  | seen, it :: rest, t, ht, hseen => by
    simp only [dedupAux]
    by_cases h : pyStrip it.title = "" ∨ pyStrip it.title ∈ seen
    · rw [if_pos h]
      have hne : (pyStrip it.title == t) = false := by
        simp only [beq_eq_false_iff_ne, ne_eq]
        intro heq
        rw [heq] at h
        rcases h with h | h
        · exact ht h
        · exact hseen h
      simp only [List.find?, hne]
      exact dedupAux_find seen rest t ht hseen
    · rw [if_neg h]
      by_cases heq : pyStrip it.title = t
      · have hp : (pyStrip it.title == t) = true := beq_iff_eq.mpr heq
        simp only [List.find?, hp]
      · have hne : (pyStrip it.title == t) = false := beq_eq_false_iff_ne.mpr heq
        simp only [List.find?, hne]
        refine dedupAux_find _ rest t ht fun hc => ?_
        rcases List.mem_cons.mp hc with hc1 | hc2
        · exact heq hc1.symm
        · exact hseen hc2

/-! ### Claim theorems -/

/-- C1: the verdict is a deterministic function of the two scores given by
the sequential overwrites default / plagiarism / misleading / both, which
amounts to the four-region decision table; in particular the four sample
pairs map to the four labels. -/
theorem verdict_decision_table :
    (∀ p f : ℚ, verdictOf p f =
      if p > 0.7 ∧ f > 0.6 then "High Risk: Copied & Misleading"
      else if f > 0.6 then "Potentially Misleading"
      else if p > 0.7 then "Possible Plagiarism"
      else "Likely Authentic")
    ∧ verdictOf 0.8 0.7 = "High Risk: Copied & Misleading"
    ∧ verdictOf 0.8 0.3 = "Possible Plagiarism"
    ∧ verdictOf 0.2 0.7 = "Potentially Misleading"
    ∧ verdictOf 0.2 0.3 = "Likely Authentic" := by
  refine ⟨fun p f => ?_, by norm_num [verdictOf], by norm_num [verdictOf],
    by norm_num [verdictOf], by norm_num [verdictOf]⟩
  unfold verdictOf
  by_cases hp : p > 0.7 <;> by_cases hf : f > 0.6 <;> simp [hp, hf]

/-- C2: on an empty similarity sequence the plagiarism score is `0`, the
agreement defaults to `0`, and the fake-news score is `1 − 0 = 1`. -/
theorem empty_sims_scores :
    plagiarism_score [] = 0 ∧ agreement [] = 0 ∧ fake_news_score [] = 1 := by
  refine ⟨rfl, by simp [agreement, top_k], by norm_num [fake_news_score, agreement, top_k]⟩

/-- C3: for every similarity sequence whose entries lie in `[0,1]`
(including the empty one), both derived scores lie in `[0,1]`; the
fake-news score is clamped below by `0`. -/
theorem scores_in_unit_interval (sims : List ℚ)
    (h : ∀ x ∈ sims, 0 ≤ x ∧ x ≤ 1) :
    0 ≤ plagiarism_score sims ∧ plagiarism_score sims ≤ 1
    ∧ 0 ≤ fake_news_score sims ∧ fake_news_score sims ≤ 1 := by
  have hag : 0 ≤ agreement sims := agreement_nonneg sims fun x hx => (h x hx).1
  refine ⟨?_, ?_, le_max_left 0 _, max_le (by norm_num) (by linarith)⟩
  · cases sims with
    | nil => exact le_refl 0
    | cons x xs =>
      exact le_trans (h x (List.mem_cons_self x xs)).1 (le_foldl_max xs x)
  · cases sims with
    | nil => exact zero_le_one
    | cons x xs =>
      exact foldl_max_le_of_le xs x (h x (List.mem_cons_self x xs)).2
        (fun y hy => (h y (List.mem_cons_of_mem _ hy)).2)

/-- C3 witness: the bounds at the concrete similarity sequence `[1/2]`. -/
theorem scores_in_unit_interval_witness :
    (∀ x ∈ ([1/2] : List ℚ), 0 ≤ x ∧ x ≤ 1)
    ∧ (0 ≤ plagiarism_score [1/2] ∧ plagiarism_score [1/2] ≤ 1
       ∧ 0 ≤ fake_news_score [1/2] ∧ fake_news_score [1/2] ≤ 1) :=
  ⟨by norm_num, scores_in_unit_interval [1/2] (by norm_num)⟩

/-- C5: the Corpus Aggregator keeps a subsequence of the flattened fetch
results (original relative order preserved), its stripped titles are
pairwise distinct and never empty, the first occurrence of each nonempty
stripped title is the one kept, the result is truncated to 60 entries, and
the titles `["A", "A", "", "B"]` (across two sources) yield exactly the
first A-article and the B-article. -/
theorem corpus_dedup_spec (results : List (List Article)) :
    (gather_latest_news results).Sublist results.flatten
    ∧ ((gather_latest_news results).map fun a => pyStrip a.title).Nodup
    ∧ (∀ a ∈ gather_latest_news results, pyStrip a.title ≠ "")
    ∧ (∀ t : String, t ≠ "" →
        (dedupAux [] results.flatten).find? (fun a => pyStrip a.title == t)
          = results.flatten.find? (fun a => pyStrip a.title == t))
    ∧ (gather_latest_news results).length ≤ 60
    ∧ gather_latest_news [[⟨"A", "s1", "l1"⟩, ⟨"A", "s2", "l2"⟩],
        [⟨"", "s3", "l3"⟩, ⟨"B", "s4", "l4"⟩]]
        = [⟨"A", "s1", "l1"⟩, ⟨"B", "s4", "l4"⟩] := by
  refine ⟨?_, ?_, fun a ha => ?_, fun t ht => dedupAux_find [] _ t ht (by simp),
    List.length_take_le _ _, by decide⟩
  · exact (List.take_sublist _ _).trans (dedupAux_sublist [] results.flatten)
  · exact List.Nodup.sublist ((List.take_sublist _ _).map _)
      (dedupAux_nodup [] results.flatten)
  · exact (dedupAux_mem [] results.flatten a
      (List.take_subset _ _ ha)).1

/-- C5 witness: first-occurrence lookup agreement at the stripped title
`"A"` over a concrete two-source fetch result. -/
theorem corpus_dedup_spec_witness :
    (("A" : String) ≠ "")
    ∧ (dedupAux [] ([[⟨"A", "s1", "l1"⟩, ⟨"A", "s2", "l2"⟩],
        [⟨"", "s3", "l3"⟩, ⟨"B", "s4", "l4"⟩]] : List (List Article)).flatten).find?
          (fun a => pyStrip a.title == "A")
      = ([[⟨"A", "s1", "l1"⟩, ⟨"A", "s2", "l2"⟩],
        [⟨"", "s3", "l3"⟩, ⟨"B", "s4", "l4"⟩]] : List (List Article)).flatten.find?
          (fun a => pyStrip a.title == "A") :=
  ⟨by decide, (corpus_dedup_spec [[⟨"A", "s1", "l1"⟩, ⟨"A", "s2", "l2"⟩],
    [⟨"", "s3", "l3"⟩, ⟨"B", "s4", "l4"⟩]]).2.2.2.1 "A" (by decide)⟩

/-- C6: a submission whose text strips to empty fails with a 400
validation error, and no stored record is ever produced for it. -/
theorem empty_text_no_persistence (payload : Submission) (fetched : List (List Article))
    (sims : List ℚ) (ts1 ts2 docId : String) (h : pyStrip payload.text = "") :
    analyze payload fetched sims ts1 ts2 docId = Except.error 400
    ∧ ∀ doc resp, analyze payload fetched sims ts1 ts2 docId ≠ Except.ok (doc, resp) := by
  have he : analyze payload fetched sims ts1 ts2 docId = Except.error 400 := by
    simp [analyze, h]
  exact ⟨he, fun doc resp hc => by rw [he] at hc; exact Except.noConfusion hc⟩

/-- C6 witness: the whitespace-only submission `"  "` is rejected with 400
and yields no stored record. -/
theorem empty_text_no_persistence_witness :
    pyStrip (⟨"  ", none⟩ : Submission).text = ""
    ∧ (analyze ⟨"  ", none⟩ [] [] "t1" "t2" "id" = Except.error 400
       ∧ ∀ doc resp, analyze ⟨"  ", none⟩ [] [] "t1" "t2" "id" ≠ Except.ok (doc, resp)) :=
  ⟨by decide, empty_text_no_persistence ⟨"  ", none⟩ [] [] "t1" "t2" "id" (by decide)⟩

/-- C7: the Feed Fetcher returns at most 20 articles, in feed order as the
normalization of the first 20 entries; missing fields default to the empty
string; a parse/network failure yields the empty list. -/
theorem fetch_feed_contract :
    fetch_feed none = []
    ∧ (∀ entries, (fetch_feed (some entries)).length ≤ 20)
    ∧ (∀ entries, fetch_feed (some entries) = (entries.take 20).map entryToArticle)
    ∧ (∀ e : FeedEntry,
        (e.title = none → (entryToArticle e).title = "")
        ∧ (e.summary = none → (entryToArticle e).summary = "")
        ∧ (e.link = none → (entryToArticle e).link = "")) := by
  refine ⟨rfl, fun entries => ?_, fun entries => rfl, fun e => ⟨?_, ?_, ?_⟩⟩
  · simp only [fetch_feed, List.length_map]
    exact List.length_take_le 20 entries
  all_goals intro h; simp [entryToArticle, h]

/-- C7 witness: the all-missing feed entry normalizes to empty-string
fields. -/
theorem fetch_feed_contract_witness :
    ((⟨none, none, none⟩ : FeedEntry).title = none)
    ∧ (entryToArticle ⟨none, none, none⟩).title = "" :=
  ⟨rfl, (fetch_feed_contract.2.2.2 ⟨none, none, none⟩).1 rfl⟩

/-- C8: on every successful analysis, the aggregated corpus has at most 60
articles, the stored record keeps exactly the first 10 of them (hence at
most 10), and the response compares exactly the first 5 (hence at most 5). -/
theorem analyze_output_bounds (payload : Submission) (fetched : List (List Article))
    (sims : List ℚ) (ts1 ts2 docId : String) (h : ¬ pyStrip payload.text = "") :
    ∃ doc resp, analyze payload fetched sims ts1 ts2 docId = Except.ok (doc, resp)
      ∧ (gather_latest_news fetched).length ≤ 60
      ∧ doc.articles_used = (gather_latest_news fetched).take 10
      ∧ doc.articles_used.length ≤ 10
      ∧ resp.compared_articles = (gather_latest_news fetched).take 5
      ∧ resp.compared_articles.length ≤ 5 := by
  refine ⟨⟨pyStrip payload.text, payload.url, plagiarism_score sims, fake_news_score sims,
      verdictOf (plagiarism_score sims) (fake_news_score sims),
      (gather_latest_news fetched).take 10, ts1, ts2⟩,
    ⟨docId, round3 (plagiarism_score sims), round3 (fake_news_score sims),
      verdictOf (plagiarism_score sims) (fake_news_score sims),
      (gather_latest_news fetched).take 5⟩,
    ?_, List.length_take_le _ _, rfl, List.length_take_le _ _,
    rfl, List.length_take_le _ _⟩
  simp only [analyze]
  rw [if_neg h]

/-- C8 witness: the bounds at a concrete nonempty submission. -/
theorem analyze_output_bounds_witness :
    (¬ pyStrip (⟨"hello", none⟩ : Submission).text = "")
    ∧ (∃ doc resp, analyze ⟨"hello", none⟩ [] [] "t1" "t2" "id" = Except.ok (doc, resp)
      ∧ (gather_latest_news []).length ≤ 60
      ∧ doc.articles_used = (gather_latest_news []).take 10
      ∧ doc.articles_used.length ≤ 10
      ∧ resp.compared_articles = (gather_latest_news []).take 5
      ∧ resp.compared_articles.length ≤ 5) :=
  ⟨by decide, analyze_output_bounds ⟨"hello", none⟩ [] [] "t1" "t2" "id" (by decide)⟩

/-- C9: the stored record carries the raw scores, the verdict is computed
from the raw scores, and only the response carries the 3-decimal rounded
scores; with the raw pair `(0.7004, 0.2996)` the verdict is driven by the
unrounded comparison (`0.7004 > 0.7`), while the same thresholds applied to
the rounded pair `(0.7, 0.3)` would give a different label. -/
theorem rounding_only_in_response (payload : Submission) (fetched : List (List Article))
    (sims : List ℚ) (ts1 ts2 docId : String) (h : ¬ pyStrip payload.text = "") :
    ∃ doc resp, analyze payload fetched sims ts1 ts2 docId = Except.ok (doc, resp)
      ∧ doc.plagiarism_score = plagiarism_score sims
      ∧ doc.fake_news_score = fake_news_score sims
      ∧ resp.plagiarism_score = round3 (plagiarism_score sims)
      ∧ resp.fake_news_score = round3 (fake_news_score sims)
      ∧ doc.verdict = verdictOf (plagiarism_score sims) (fake_news_score sims)
      ∧ resp.verdict = verdictOf (plagiarism_score sims) (fake_news_score sims)
      ∧ verdictOf (0.7004 : ℚ) (0.2996 : ℚ) = "Possible Plagiarism"
      ∧ round3 (0.7004 : ℚ) = 0.7 ∧ round3 (0.2996 : ℚ) = 0.3
      ∧ verdictOf (round3 (0.7004 : ℚ)) (round3 (0.2996 : ℚ)) = "Likely Authentic" := by
  refine ⟨⟨pyStrip payload.text, payload.url, plagiarism_score sims, fake_news_score sims,
      verdictOf (plagiarism_score sims) (fake_news_score sims),
      (gather_latest_news fetched).take 10, ts1, ts2⟩,
    ⟨docId, round3 (plagiarism_score sims), round3 (fake_news_score sims),
      verdictOf (plagiarism_score sims) (fake_news_score sims),
      (gather_latest_news fetched).take 5⟩,
    ?_, rfl, rfl, rfl, rfl, rfl, rfl, ?_, ?_, ?_, ?_⟩
  · simp only [analyze]
    rw [if_neg h]
  · norm_num [verdictOf]
  · norm_num [round3, roundHalfEven]
  · norm_num [round3, roundHalfEven]
  · norm_num [verdictOf, round3, roundHalfEven]

/-- C9 witness: the dataflow facts at a concrete nonempty submission. -/
theorem rounding_only_in_response_witness :
    (¬ pyStrip (⟨"x", none⟩ : Submission).text = "")
    ∧ (∃ doc resp, analyze ⟨"x", none⟩ [] [0.5] "t1" "t2" "id" = Except.ok (doc, resp)
      ∧ doc.plagiarism_score = plagiarism_score [0.5]
      ∧ doc.fake_news_score = fake_news_score [0.5]
      ∧ resp.plagiarism_score = round3 (plagiarism_score [0.5])
      ∧ resp.fake_news_score = round3 (fake_news_score [0.5])
      ∧ doc.verdict = verdictOf (plagiarism_score [0.5]) (fake_news_score [0.5])
      ∧ resp.verdict = verdictOf (plagiarism_score [0.5]) (fake_news_score [0.5])
      ∧ verdictOf (0.7004 : ℚ) (0.2996 : ℚ) = "Possible Plagiarism"
      ∧ round3 (0.7004 : ℚ) = 0.7 ∧ round3 (0.2996 : ℚ) = 0.3
      ∧ verdictOf (round3 (0.7004 : ℚ)) (round3 (0.2996 : ℚ)) = "Likely Authentic") :=
  ⟨by decide, rounding_only_in_response ⟨"x", none⟩ [] [0.5] "t1" "t2" "id" (by decide)⟩

/-- C10: `create_document` always maps `_created_at` and `_updated_at` to
its own timestamp, leaves every other key as supplied, and in particular
replaces the timestamps `analyze` wrote into the analysis record. -/
theorem create_document_overwrites_timestamps (now : String) (data : Dict) :
    create_document now data "_created_at" = some (Value.str now)
    ∧ create_document now data "_updated_at" = some (Value.str now)
    ∧ (∀ k, k ≠ "_created_at" → k ≠ "_updated_at" → create_document now data k = data k)
    ∧ (∀ d : StoredDoc,
        create_document now (docDict d) "_created_at" = some (Value.str now)
        ∧ create_document now (docDict d) "_updated_at" = some (Value.str now)) := by
  refine ⟨?_, ?_, fun k h1 h2 => ?_, fun d => ⟨?_, ?_⟩⟩ <;>
    simp [create_document, dictInsert, *]

/-- C10 witness: an ordinary key survives `create_document` unchanged on a
concrete dict. -/
theorem create_document_overwrites_timestamps_witness :
    (("text" : String) ≠ "_created_at")
    ∧ (("text" : String) ≠ "_updated_at")
    ∧ create_document "T" (fun _ => none) "text" = (fun _ => none : Dict) "text" :=
  ⟨by decide, by decide,
    (create_document_overwrites_timestamps "T" (fun _ => none)).2.2.1 "text"
      (by decide) (by decide)⟩

theorem dotp_nonneg {m : ℕ} (a b : Vec m) (ha : ∀ i, 0 ≤ a i) (hb : ∀ i, 0 ≤ b i) :
    0 ≤ dotp a b :=
  Finset.sum_nonneg fun i _ => mul_nonneg (ha i) (hb i)

theorem cosineSim_nonneg {m : ℕ} (a b : Vec m) (ha : ∀ i, 0 ≤ a i) (hb : ∀ i, 0 ≤ b i) :
    0 ≤ cosineSim a b :=
  div_nonneg (dotp_nonneg a b ha hb)
    (mul_nonneg (Real.sqrt_nonneg _) (Real.sqrt_nonneg _))

theorem cosineSim_le_one {m : ℕ} (a b : Vec m) : cosineSim a b ≤ 1 := by
  unfold cosineSim
  refine div_le_one_of_le₀ ?_ (mul_nonneg (Real.sqrt_nonneg _) (Real.sqrt_nonneg _))
  have h := Real.sum_mul_le_sqrt_mul_sqrt Finset.univ a b
  simpa [dotp, pow_two] using h

/-- C4: writing the fitted matrix as the submission row followed by one
row per article (all TF-IDF weights non-negative), the similarity step
returns exactly the cosine similarities of the submission against each
article row, in corpus order — hence one score in `[0,1]` per article;
the corpus pairs the submission with each article's title-space-summary
document; an empty corpus gives the empty sequence, and a vectorization
failure is absorbed into the empty sequence. -/
theorem similarity_engine_contract (m : ℕ) (text : String) (articles : List Article)
    (v0 : Vec m) (rows : List (Vec m))
    (hlen : rows.length = articles.length)
    (h0 : ∀ i, 0 ≤ v0 i) (hrows : ∀ v ∈ rows, ∀ i, 0 ≤ v i) :
    simsOf (some (v0 :: rows)) = rows.map (cosineSim v0)
    ∧ (simsOf (some (v0 :: rows))).length = articles.length
    ∧ (∀ s ∈ simsOf (some (v0 :: rows)), 0 ≤ s ∧ s ≤ 1)
    ∧ corpusOf text articles = text :: articles.map combinedDoc
    ∧ (articles = [] → simsOf (some (v0 :: rows)) = [])
    ∧ simsOf (some ([] : List (Vec m))) = []
    ∧ simsOf (none : Option (List (Vec m))) = [] := by
  have hmap : simsOf (some (v0 :: rows)) = rows.map (cosineSim v0) := by
    cases rows with
    | nil => simp [simsOf]
    | cons r rs => simp [simsOf]
  refine ⟨hmap, ?_, ?_, rfl, ?_, rfl, rfl⟩
  · rw [hmap, List.length_map, hlen]
  · intro s hs
    rw [hmap] at hs
    rcases List.mem_map.mp hs with ⟨v, hv, rfl⟩
    exact ⟨cosineSim_nonneg v0 v h0 (hrows v hv), cosineSim_le_one v0 v⟩
  · intro hA
    have hr : rows = [] := List.length_eq_zero.mp (by rw [hlen, hA]; rfl)
    rw [hmap, hr]
    rfl

/-- A concrete one-dimensional unit row, a witness input. -/
def oneVec : Vec 1 := fun _ => 1

/-- C4 witness: the similarity contract at a one-article corpus whose two
rows are the unit row. -/
theorem similarity_engine_contract_witness :
    ([oneVec] : List (Vec 1)).length = ([⟨"t", "s", "l"⟩] : List Article).length
    ∧ (∀ i, 0 ≤ oneVec i)
    ∧ (∀ v ∈ ([oneVec] : List (Vec 1)), ∀ i, 0 ≤ v i)
    ∧ (∀ s ∈ simsOf (some (oneVec :: [oneVec])), 0 ≤ s ∧ s ≤ 1) :=
  ⟨rfl, fun _ => zero_le_one,
    fun v hv i => by
      rcases List.mem_singleton.mp hv with rfl
      exact zero_le_one,
    (similarity_engine_contract 1 "x" [⟨"t", "s", "l"⟩] oneVec [oneVec] rfl
      (fun _ => zero_le_one) (fun v hv i => by
        rcases List.mem_singleton.mp hv with rfl
        exact zero_le_one)).2.2.1⟩

end AIGuardian
